import Mathlib

/-!
Verification of the PumpPortal trading client (`src/pumpPortal.ts`).

The two exported operations `buyViaPumpPortal` and `sellViaPumpPortal` are
request/response/sign/submit/confirm pipelines wrapped in heuristic error
classification.  We shallowly embed them as pure Lean functions over an
`Env` record that fixes the outcome of every external call (address parsing
by the SDK, the HTTP POST to the trade builder, transaction
deserialization, signing, submission, blockhash fetch, confirmation).
Each operation returns a `RunResult`: the `Option String` return value, the
ordered list of emitted log entries, and the ordered trace of external
actions performed.  JavaScript numbers are modelled as exact rationals, and
thrown JavaScript errors as a `JsError` record mirroring the fields the
catch handlers inspect (`response`, `message`, `logs`, `toString`).
-/

namespace PumpPortal

/-- Severity levels of the swappable logging sink. -/
inductive LogLevel
  | debug
  | info
  | warn
  | error
deriving DecidableEq, Repr

/-- A single emitted log line: severity plus rendered message. -/
structure LogEntry where
  level : LogLevel
  msg : String
deriving DecidableEq, Repr

/-- `tokenMint.substring(0, 8)` from the source. -/
def take8 (s : String) : String := s.take 8

/-- Boolean prefix test on character lists (mirrors JavaScript
`String.prototype.startsWith` restricted to what `includes` needs). -/
def charsStartWith : List Char → List Char → Bool
  | [], _ => true
  | _ :: _, [] => false
  | a :: as, b :: bs => a == b && charsStartWith as bs

/-- Boolean infix test on character lists. -/
def charsContains (needle : List Char) : List Char → Bool
  | [] => charsStartWith needle []
  | c :: t => charsStartWith needle (c :: t) || charsContains needle t

/-- JavaScript `hay.includes(needle)`. -/
def strContains (hay needle : String) : Bool :=
  charsContains needle.toList hay.toList

/-- The migration/unknown-token keyword test applied to decoded HTTP error
bodies: `errorText.includes("bonding curve") || errorText.includes("migrated") ||
errorText.includes("does not exist")`. -/
def migrationText (t : String) : Bool :=
  strContains t "bonding curve" || strContains t "migrated" ||
    strContains t "does not exist"

/-- The bonding-curve-exhaustion keyword test:
`s.includes("NotEnoughTokensToBuy") || s.includes("Not enough tokens")`. -/
def notEnoughText (t : String) : Bool :=
  strContains t "NotEnoughTokensToBuy" || strContains t "Not enough tokens"

/-- The `error.response` object of an HTTP failure: status code, whether
`response.data` is present (truthy), the result of decoding it as UTF-8
(`none` models a decode failure caught by the inner `try`), and the raw
rendering used by the fallback log line. -/
structure HttpErrResp where
  status : Int
  hasData : Bool
  decoded : Option String
  dataStr : String
deriving DecidableEq, Repr

/-- A thrown JavaScript error as the catch handlers see it: optional
`response` (HTTP failure), optional truthy `message`, optional `logs`
array, and the `toString()` rendering. -/
structure JsError where
  response : Option HttpErrResp
  message : Option String
  logs : Option (List String)
  str : String
deriving DecidableEq, Repr

/-- Options passed to `sendRawTransaction`. -/
structure SendOpts where
  skipPreflight : Bool
  maxRetries : Nat
deriving DecidableEq, Repr

/-- The blockhash record returned by `getLatestBlockhash`. -/
structure Blockhash where
  blockhash : String
  lastValidBlockHeight : Nat
deriving DecidableEq, Repr

/-- `confirmation.value` from `confirmTransaction`: the optional on-chain
error. -/
structure Confirmation where
  err : Option String
deriving DecidableEq, Repr

/-- The trade request payload built by each pipeline (buy sends it as a
JSON-like object, sell as URL-encoded parameters; the field content is
identical in shape). -/
structure TradeRequest where
  publicKey : String
  action : String
  mint : String
  amount : String
  denominatedInSol : String
  slippage : ℚ
  priorityFee : ℚ
  pool : String
deriving DecidableEq, Repr

/-- External actions a pipeline run performs, in order. -/
inductive Action
  | httpPost (req : TradeRequest)
  | deserializeTx
  | signReq
  | sendTx (opts : SendOpts)
  | fetchBlockhash
  | confirmTx
deriving DecidableEq, Repr

/-- Recognizer for signature-request actions. -/
def isSignReq : Action → Bool
  | .httpPost _ => false
  | .deserializeTx => false
  | .signReq => true
  | .sendTx _ => false
  | .fetchBlockhash => false
  | .confirmTx => false

/-- Recognizer for submission actions. -/
def isSendTx : Action → Bool
  | .httpPost _ => false
  | .deserializeTx => false
  | .signReq => false
  | .sendTx _ => true
  | .fetchBlockhash => false
  | .confirmTx => false

/-- Recognizer for remote-build POST actions. -/
def isHttpPost : Action → Bool
  | .httpPost _ => true
  | .deserializeTx => false
  | .signReq => false
  | .sendTx _ => false
  | .fetchBlockhash => false
  | .confirmTx => false

/-- The environment: outcome of every external call the pipelines can make.
Transactions are opaque handles (`Nat`). -/
structure Env where
  parseMint : String → Except String String
  walletPublicKey : String
  post : TradeRequest → Except JsError (Option (List Nat))
  deserialize : List Nat → Except JsError Nat
  signTx : Nat → Except JsError Nat
  serialize : Nat → List Nat
  sendRawTransaction : List Nat → SendOpts → Except JsError String
  getLatestBlockhash : String → Except JsError Blockhash
  confirmTransaction : String → Blockhash → String → Except JsError Confirmation

/-- Result of one pipeline run: the returned value, the log, and the trace
of external actions. -/
structure RunResult where
  ret : Option String
  log : List LogEntry
  trace : List Action
deriving DecidableEq, Repr

/-- The fixed options of the single submission call:
`{ skipPreflight: false, maxRetries: 3 }`. -/
def sendOpts : SendOpts := { skipPreflight := false, maxRetries := 3 }

/-- The buy request payload, with the SOL amount converted to integer
lamports by `Math.floor(solAmount * 1e9)` and rendered as a decimal
string. -/
def buyRequest (env : Env) (validTokenMint : String)
    (solAmount slippagePercent priorityFee : ℚ) : TradeRequest :=
  { publicKey := env.walletPublicKey
    action := "buy"
    mint := validTokenMint
    amount := toString (⌊solAmount * 1000000000⌋ : ℤ)
    denominatedInSol := "true"
    slippage := slippagePercent
    priorityFee := priorityFee
    pool := "pump" }

/-- The sell request payload; the token amount is passed through without
scaling. -/
def sellRequest (env : Env) (validTokenMint : String)
    (tokenAmount slippagePercent priorityFee : ℚ) : TradeRequest :=
  { publicKey := env.walletPublicKey
    action := "sell"
    mint := validTokenMint
    amount := toString tokenAmount
    denominatedInSol := "false"
    slippage := slippagePercent
    priorityFee := priorityFee
    pool := "pump" }

/-- The two token-migration warning message. -/
def migratedWarnMsg (tokenMint : String) : String :=
  "Token " ++ take8 tokenMint ++
    "... has migrated or does not exist on pump.fun bonding curve"

/-- The status-400 warning message. -/
def invalidParamsMsg (tokenMint : String) : String :=
  "Invalid token or request parameters for " ++ take8 tokenMint ++ "..."

/-- The expanded bonding-curve-exhaustion diagnostic emitted by the buy
handler when the error message matches `notEnoughText`. -/
def bondingCurveDiag (tokenMint : String) : List LogEntry :=
  [⟨.error, "BONDING CURVE ERROR"⟩,
   ⟨.error, "Token " ++ take8 tokenMint ++
      "... bonding curve has insufficient tokens"⟩,
   ⟨.error, "Possible reasons:"⟩,
   ⟨.error, "  1. Token bonding curve is almost empty (most tokens sold)"⟩,
   ⟨.error, "  2. Token has migrated/launched (bonding curve completed)"⟩,
   ⟨.error, "  3. Amount requested is too large for available tokens"⟩]

/-- Per-line routing of `error.logs` in the buy handler: lines matching the
exhaustion keywords, or containing `Left:` or `Right:`, are surfaced at
error level; all others go to debug. -/
def classifyLogLine (lg : String) : LogEntry :=
  if notEnoughText lg then ⟨.error, "  " ++ lg⟩
  else if strContains lg "Left:" || strContains lg "Right:" then
    ⟨.error, "  " ++ lg⟩
  else ⟨.debug, "  " ++ lg⟩

/-- The status-400 branch shared by both handlers. -/
def status400Log (tokenMint : String) (resp : HttpErrResp) : List LogEntry :=
  if resp.status = 400 then [⟨.warn, invalidParamsMsg tokenMint⟩] else []

/-- The `error.response` branch of both catch handlers (identical in buy
and sell): log the status, decode and log the body, return early on a
migration keyword (skipping the status-400 check), otherwise fall through
to the status-400 check. -/
def handleHttpError (tokenMint : String) (resp : HttpErrResp) :
    List LogEntry :=
  let l0 : List LogEntry :=
    [⟨.error, "PumpPortal API error: " ++ toString resp.status⟩]
  if resp.hasData then
    match resp.decoded with
    | some errorText =>
      let l1 := l0 ++ [⟨.error, "Error details: " ++ errorText⟩]
      if migrationText errorText then
        l1 ++ [⟨.warn, migratedWarnMsg tokenMint⟩]
      else
        l1 ++ status400Log tokenMint resp
    | none =>
      l0 ++ [⟨.error, "Error response: " ++ resp.dataStr⟩] ++
        status400Log tokenMint resp
  else
    l0 ++ status400Log tokenMint resp

/-- The buy catch handler. -/
def handleBuyError (tokenMint : String) (e : JsError) : List LogEntry :=
  match e.response with
  | some resp => handleHttpError tokenMint resp
  | none =>
    match e.message with
    | some m =>
      ([⟨.error, "PumpPortal buy error: " ++ m⟩] ++
        (if notEnoughText m then bondingCurveDiag tokenMint else []) ++
        (match e.logs with
         | some ls =>
           [⟨.error, "Transaction Logs:"⟩] ++ ls.map classifyLogLine
         | none => []))
    | none => [⟨.error, "PumpPortal buy error: " ++ e.str⟩]

/-- The sell catch handler: identical HTTP branch; no exhaustion diagnostic
and no log-line routing. -/
def handleSellError (tokenMint : String) (e : JsError) : List LogEntry :=
  match e.response with
  | some resp => handleHttpError tokenMint resp
  | none =>
    match e.message with
    | some m => [⟨.error, "PumpPortal sell error: " ++ m⟩]
    | none => [⟨.error, "PumpPortal sell error: " ++ e.str⟩]

/-- `buyViaPumpPortal` from the source: validate the mint, build and POST
the request, check for an empty body, deserialize, sign, submit, fetch the
latest finalized blockhash, await confirmation, and inspect the on-chain
error; every failure lands on a `none` return with the corresponding log
entries. -/
def buyViaPumpPortal (env : Env) (tokenMint : String) (solAmount : ℚ)
    (slippagePercent : ℚ := 5) (priorityFee : ℚ := 1/200) : RunResult :=
  let l0 : List LogEntry :=
    [⟨.info, "Using PumpPortal API to buy " ++ toString solAmount ++
      " SOL worth of " ++ take8 tokenMint ++ "..."⟩]
  match env.parseMint tokenMint with
  | .error emsg =>
    ⟨none,
     l0 ++ [⟨.error, "Invalid token mint address: " ++ tokenMint ++ " - " ++
        emsg⟩],
     []⟩
  | .ok validTokenMint =>
    let req := buyRequest env validTokenMint solAmount slippagePercent
      priorityFee
    let l1 := l0 ++ [⟨.debug, "PumpPortal API request:"⟩]
    match env.post req with
    | .error e => ⟨none, l1 ++ handleBuyError tokenMint e, [.httpPost req]⟩
    | .ok none =>
      ⟨none, l1 ++ [⟨.error, "Empty response from PumpPortal API"⟩],
       [.httpPost req]⟩
    | .ok (some data) =>
      if data.length = 0 then
        ⟨none, l1 ++ [⟨.error, "Empty response from PumpPortal API"⟩],
         [.httpPost req]⟩
      else
        let l2 := l1 ++ [⟨.info, "Received transaction from PumpPortal API (" ++
          toString data.length ++ " bytes)"⟩]
        match env.deserialize data with
        | .error e =>
          ⟨none, l2 ++ handleBuyError tokenMint e,
           [.httpPost req, .deserializeTx]⟩
        | .ok tx =>
          match env.signTx tx with
          | .error e =>
            ⟨none, l2 ++ handleBuyError tokenMint e,
             [.httpPost req, .deserializeTx, .signReq]⟩
          | .ok stx =>
            let l3 := l2 ++ [⟨.info, "Sending PumpPortal transaction..."⟩]
            match env.sendRawTransaction (env.serialize stx) sendOpts with
            | .error e =>
              ⟨none, l3 ++ handleBuyError tokenMint e,
               [.httpPost req, .deserializeTx, .signReq, .sendTx sendOpts]⟩
            | .ok sig =>
              let l4 := l3 ++ [⟨.info, "Transaction sent: " ++ sig⟩]
              match env.getLatestBlockhash "finalized" with
              | .error e =>
                ⟨none, l4 ++ handleBuyError tokenMint e,
                 [.httpPost req, .deserializeTx, .signReq, .sendTx sendOpts,
                  .fetchBlockhash]⟩
              | .ok bh =>
                match env.confirmTransaction sig bh "confirmed" with
                | .error e =>
                  ⟨none, l4 ++ handleBuyError tokenMint e,
                   [.httpPost req, .deserializeTx, .signReq,
                    .sendTx sendOpts, .fetchBlockhash, .confirmTx]⟩
                | .ok confirmation =>
                  match confirmation.err with
                  | some cerr =>
                    ⟨none, l4 ++ [⟨.error, "Transaction failed: " ++ cerr⟩],
                     [.httpPost req, .deserializeTx, .signReq,
                      .sendTx sendOpts, .fetchBlockhash, .confirmTx]⟩
                  | none =>
                    ⟨some sig,
                     l4 ++ [⟨.info, "BUY SUCCESSFUL via PumpPortal: " ++ sig⟩,
                      ⟨.info, "Transaction: https://solscan.io/tx/" ++ sig⟩],
                     [.httpPost req, .deserializeTx, .signReq,
                      .sendTx sendOpts, .fetchBlockhash, .confirmTx]⟩

/-- `sellViaPumpPortal` from the source: the same pipeline as buy with the
sell payload and the sell catch handler. -/
def sellViaPumpPortal (env : Env) (tokenMint : String) (tokenAmount : ℚ)
    (slippagePercent : ℚ := 5) (priorityFee : ℚ := 1/200) : RunResult :=
  let l0 : List LogEntry :=
    [⟨.info, "Using PumpPortal API to sell " ++ toString tokenAmount ++
      " tokens of " ++ take8 tokenMint ++ "..."⟩]
  match env.parseMint tokenMint with
  | .error emsg =>
    ⟨none,
     l0 ++ [⟨.error, "Invalid token mint address: " ++ tokenMint ++ " - " ++
        emsg⟩],
     []⟩
  | .ok validTokenMint =>
    let req := sellRequest env validTokenMint tokenAmount slippagePercent
      priorityFee
    let l1 := l0 ++ [⟨.debug, "PumpPortal API request:"⟩]
    match env.post req with
    | .error e => ⟨none, l1 ++ handleSellError tokenMint e, [.httpPost req]⟩
    | .ok none =>
      ⟨none, l1 ++ [⟨.error, "Empty response from PumpPortal API"⟩],
       [.httpPost req]⟩
    | .ok (some data) =>
      if data.length = 0 then
        ⟨none, l1 ++ [⟨.error, "Empty response from PumpPortal API"⟩],
         [.httpPost req]⟩
      else
        let l2 := l1 ++ [⟨.info, "Received transaction from PumpPortal API (" ++
          toString data.length ++ " bytes)"⟩]
        match env.deserialize data with
        | .error e =>
          ⟨none, l2 ++ handleSellError tokenMint e,
           [.httpPost req, .deserializeTx]⟩
        | .ok tx =>
          match env.signTx tx with
          | .error e =>
            ⟨none, l2 ++ handleSellError tokenMint e,
             [.httpPost req, .deserializeTx, .signReq]⟩
          | .ok stx =>
            let l3 := l2 ++ [⟨.info, "Sending PumpPortal transaction..."⟩]
            match env.sendRawTransaction (env.serialize stx) sendOpts with
            | .error e =>
              ⟨none, l3 ++ handleSellError tokenMint e,
               [.httpPost req, .deserializeTx, .signReq, .sendTx sendOpts]⟩
            | .ok sig =>
              let l4 := l3 ++ [⟨.info, "Transaction sent: " ++ sig⟩]
              match env.getLatestBlockhash "finalized" with
              | .error e =>
                ⟨none, l4 ++ handleSellError tokenMint e,
                 [.httpPost req, .deserializeTx, .signReq, .sendTx sendOpts,
                  .fetchBlockhash]⟩
              | .ok bh =>
                match env.confirmTransaction sig bh "confirmed" with
                | .error e =>
                  ⟨none, l4 ++ handleSellError tokenMint e,
                   [.httpPost req, .deserializeTx, .signReq,
                    .sendTx sendOpts, .fetchBlockhash, .confirmTx]⟩
                | .ok confirmation =>
                  match confirmation.err with
                  | some cerr =>
                    ⟨none, l4 ++ [⟨.error, "Transaction failed: " ++ cerr⟩],
                     [.httpPost req, .deserializeTx, .signReq,
                      .sendTx sendOpts, .fetchBlockhash, .confirmTx]⟩
                  | none =>
                    ⟨some sig,
                     l4 ++ [⟨.info, "SELL SUCCESSFUL via PumpPortal: " ++ sig⟩,
                      ⟨.info, "Transaction: https://solscan.io/tx/" ++ sig⟩],
                     [.httpPost req, .deserializeTx, .signReq,
                      .sendTx sendOpts, .fetchBlockhash, .confirmTx]⟩

/-- A fully successful environment: every external call succeeds and the
submission yields the signature `"SIG123"`. -/
def okEnv : Env :=
  { parseMint := fun s => .ok s
    walletPublicKey := "WALLETPUBKEY"
    post := fun _ => .ok (some [1, 2, 3])
    deserialize := fun _ => .ok 0
    signTx := fun t => .ok (t + 1)
    serialize := fun t => [t]
    sendRawTransaction := fun _ _ => .ok "SIG123"
    getLatestBlockhash := fun _ => .ok ⟨"BH", 100⟩
    confirmTransaction := fun _ _ _ => .ok ⟨none⟩ }

/-- An environment whose address parser rejects every input. -/
def badMintEnv : Env :=
  { okEnv with parseMint := fun _ => .error "Invalid public key input" }

/-- An HTTP failure whose body decodes to a migration keyword, with a
non-400 status. -/
def migratedErr : JsError :=
  ⟨some ⟨500, true, some "token has migrated", "raw"⟩, none, none,
   "AxiosError"⟩

/-- Environment where the builder POST fails with `migratedErr`. -/
def migratedEnv : Env :=
  { okEnv with post := fun _ => .error migratedErr }

/-- An HTTP failure with status 400 whose body decodes to a migration
keyword. -/
def migrated400Err : JsError :=
  ⟨some ⟨400, true, some "bonding curve does not exist", "raw"⟩, none, none,
   "AxiosError"⟩

/-- Environment where the builder POST fails with `migrated400Err`. -/
def migrated400Env : Env :=
  { okEnv with post := fun _ => .error migrated400Err }

/-- A non-HTTP failure whose logs (but not message) contain the exhaustion
keyword, plus a `Left:` assertion line. -/
def notEnoughLogsErr : JsError :=
  ⟨none, some "Transaction simulation failed",
   some ["Program log: NotEnoughTokensToBuy", "Left: 10"], "Error"⟩

/-- Environment where the builder POST fails with `notEnoughLogsErr`. -/
def notEnoughLogsEnv : Env :=
  { okEnv with post := fun _ => .error notEnoughLogsErr }

/-- A non-HTTP failure whose message contains the exhaustion keyword and
whose logs hold one matching and one unrelated line. -/
def notEnoughMsgErr : JsError :=
  ⟨none, some "custom program error: NotEnoughTokensToBuy",
   some ["Program log: NotEnoughTokensToBuy", "Program consumed 200 units"],
   "Error"⟩

/-- Environment where the builder POST fails with `notEnoughMsgErr`. -/
def notEnoughMsgEnv : Env :=
  { okEnv with post := fun _ => .error notEnoughMsgErr }

/-- Environment where the builder responds with a zero-length body. -/
def emptyRespEnv : Env :=
  { okEnv with post := fun _ => .ok (some []) }

/-- Environment where everything succeeds but the confirmation carries an
on-chain error. -/
def chainErrEnv : Env :=
  { okEnv with confirmTransaction := fun _ _ _ => .ok ⟨some "InstructionError"⟩ }

/-- Every external step of the buy pipeline succeeded: the mint parsed,
the builder returned a nonempty body, deserialization, signing,
submission, the blockhash fetch, and confirmation all succeeded, the
confirmation carried no on-chain error, and the operation returned the
signature produced by submission. -/
def BuyChainOk (env : Env) (tokenMint : String) (amt s p : ℚ) : Prop :=
  ∃ m data tx stx sig bh c,
    env.parseMint tokenMint = .ok m ∧
    env.post (buyRequest env m amt s p) = .ok (some data) ∧
    data ≠ [] ∧
    env.deserialize data = .ok tx ∧
    env.signTx tx = .ok stx ∧
    env.sendRawTransaction (env.serialize stx) sendOpts = .ok sig ∧
    env.getLatestBlockhash "finalized" = .ok bh ∧
    env.confirmTransaction sig bh "confirmed" = .ok c ∧
    c.err = none ∧
    (buyViaPumpPortal env tokenMint amt s p).ret = some sig

/-- Every external step of the sell pipeline succeeded, and the operation
returned the submission's signature. -/
def SellChainOk (env : Env) (tokenMint : String) (amt s p : ℚ) : Prop :=
  ∃ m data tx stx sig bh c,
    env.parseMint tokenMint = .ok m ∧
    env.post (sellRequest env m amt s p) = .ok (some data) ∧
    data ≠ [] ∧
    env.deserialize data = .ok tx ∧
    env.signTx tx = .ok stx ∧
    env.sendRawTransaction (env.serialize stx) sendOpts = .ok sig ∧
    env.getLatestBlockhash "finalized" = .ok bh ∧
    env.confirmTransaction sig bh "confirmed" = .ok c ∧
    c.err = none ∧
    (sellViaPumpPortal env tokenMint amt s p).ret = some sig

/-- On a parse failure the buy pipeline stops with the invalid-address log
and an empty action trace. -/
lemma buy_parse_fail (env : Env) (tokenMint : String) (amt s p : ℚ)
    (emsg : String) (h : env.parseMint tokenMint = .error emsg) :
    buyViaPumpPortal env tokenMint amt s p =
      ⟨none,
       [⟨.info, "Using PumpPortal API to buy " ++ toString amt ++
          " SOL worth of " ++ take8 tokenMint ++ "..."⟩,
        ⟨.error, "Invalid token mint address: " ++ tokenMint ++ " - " ++
          emsg⟩],
       []⟩ := by
  simp [buyViaPumpPortal, h]

/-- On a parse failure the sell pipeline stops with the invalid-address log
and an empty action trace. -/
lemma sell_parse_fail (env : Env) (tokenMint : String) (amt s p : ℚ)
    (emsg : String) (h : env.parseMint tokenMint = .error emsg) :
    sellViaPumpPortal env tokenMint amt s p =
      ⟨none,
       [⟨.info, "Using PumpPortal API to sell " ++ toString amt ++
          " tokens of " ++ take8 tokenMint ++ "..."⟩,
        ⟨.error, "Invalid token mint address: " ++ tokenMint ++ " - " ++
          emsg⟩],
       []⟩ := by
  simp [sellViaPumpPortal, h]

/-- Once the mint parses, the buy trace is a nonempty initial segment of
the full action sequence. -/
lemma buy_trace_take (env : Env) (tokenMint : String) (amt s p : ℚ)
    (m : String) (hm : env.parseMint tokenMint = .ok m) :
    ∃ k, 1 ≤ k ∧ (buyViaPumpPortal env tokenMint amt s p).trace =
      ([.httpPost (buyRequest env m amt s p), .deserializeTx, .signReq,
        .sendTx sendOpts, .fetchBlockhash, .confirmTx].take k) := by
  rcases hp : env.post (buyRequest env m amt s p) with e | dataOpt
  · exact ⟨1, le_refl 1, by simp [buyViaPumpPortal, hm, hp]⟩
  · rcases dataOpt with _ | data
    · exact ⟨1, le_refl 1, by simp [buyViaPumpPortal, hm, hp]⟩
    · by_cases hl : data.length = 0
      · exact ⟨1, le_refl 1, by simp [buyViaPumpPortal, hm, hp, hl]⟩
      · rcases hde : env.deserialize data with e | tx
        · exact ⟨2, by norm_num,
            by simp [buyViaPumpPortal, hm, hp, hl, hde]⟩
        · rcases hsg : env.signTx tx with e | stx
          · exact ⟨3, by norm_num,
              by simp [buyViaPumpPortal, hm, hp, hl, hde, hsg]⟩
          · rcases hsend : env.sendRawTransaction (env.serialize stx)
              sendOpts with e | sig
            · exact ⟨4, by norm_num,
                by simp [buyViaPumpPortal, hm, hp, hl, hde, hsg, hsend]⟩
            · rcases hbh : env.getLatestBlockhash "finalized" with e | bh
              · exact ⟨5, by norm_num,
                  by simp [buyViaPumpPortal, hm, hp, hl, hde, hsg, hsend,
                    hbh]⟩
              · rcases hc : env.confirmTransaction sig bh "confirmed"
                  with e | c
                · exact ⟨6, by norm_num,
                    by simp [buyViaPumpPortal, hm, hp, hl, hde, hsg, hsend,
                      hbh, hc]⟩
                · rcases hce : c.err with _ | cerr
                  · exact ⟨6, by norm_num,
                      by simp [buyViaPumpPortal, hm, hp, hl, hde, hsg,
                        hsend, hbh, hc, hce]⟩
                  · exact ⟨6, by norm_num,
                      by simp [buyViaPumpPortal, hm, hp, hl, hde, hsg,
                        hsend, hbh, hc, hce]⟩

/-- Once the mint parses, the sell trace is a nonempty initial segment of
the full action sequence. -/
lemma sell_trace_take (env : Env) (tokenMint : String) (amt s p : ℚ)
    (m : String) (hm : env.parseMint tokenMint = .ok m) :
    ∃ k, 1 ≤ k ∧ (sellViaPumpPortal env tokenMint amt s p).trace =
      ([.httpPost (sellRequest env m amt s p), .deserializeTx, .signReq,
        .sendTx sendOpts, .fetchBlockhash, .confirmTx].take k) := by
  rcases hp : env.post (sellRequest env m amt s p) with e | dataOpt
  · exact ⟨1, le_refl 1, by simp [sellViaPumpPortal, hm, hp]⟩
  · rcases dataOpt with _ | data
    · exact ⟨1, le_refl 1, by simp [sellViaPumpPortal, hm, hp]⟩
    · by_cases hl : data.length = 0
      · exact ⟨1, le_refl 1, by simp [sellViaPumpPortal, hm, hp, hl]⟩
      · rcases hde : env.deserialize data with e | tx
        · exact ⟨2, by norm_num,
            by simp [sellViaPumpPortal, hm, hp, hl, hde]⟩
        · rcases hsg : env.signTx tx with e | stx
          · exact ⟨3, by norm_num,
              by simp [sellViaPumpPortal, hm, hp, hl, hde, hsg]⟩
          · rcases hsend : env.sendRawTransaction (env.serialize stx)
              sendOpts with e | sig
            · exact ⟨4, by norm_num,
                by simp [sellViaPumpPortal, hm, hp, hl, hde, hsg, hsend]⟩
            · rcases hbh : env.getLatestBlockhash "finalized" with e | bh
              · exact ⟨5, by norm_num,
                  by simp [sellViaPumpPortal, hm, hp, hl, hde, hsg, hsend,
                    hbh]⟩
              · rcases hc : env.confirmTransaction sig bh "confirmed"
                  with e | c
                · exact ⟨6, by norm_num,
                    by simp [sellViaPumpPortal, hm, hp, hl, hde, hsg,
                      hsend, hbh, hc]⟩
                · rcases hce : c.err with _ | cerr
                  · exact ⟨6, by norm_num,
                      by simp [sellViaPumpPortal, hm, hp, hl, hde, hsg,
                        hsend, hbh, hc, hce]⟩
                  · exact ⟨6, by norm_num,
                      by simp [sellViaPumpPortal, hm, hp, hl, hde, hsg,
                        hsend, hbh, hc, hce]⟩

/-- C2: for every malformed token identifier (one the address parser
rejects), both buy and sell return `none` and never contact the remote
builder: the action trace is empty, so no HTTP request is sent. -/
theorem malformed_mint_short_circuits (env : Env) (tokenMint : String)
    (amtB amtS s p : ℚ) (emsg : String)
    (h : env.parseMint tokenMint = .error emsg) :
    (buyViaPumpPortal env tokenMint amtB s p).ret = none ∧
    (buyViaPumpPortal env tokenMint amtB s p).trace = [] ∧
    (sellViaPumpPortal env tokenMint amtS s p).ret = none ∧
    (sellViaPumpPortal env tokenMint amtS s p).trace = [] := by
  rw [buy_parse_fail env tokenMint amtB s p emsg h,
    sell_parse_fail env tokenMint amtS s p emsg h]
  exact ⟨rfl, rfl, rfl, rfl⟩

/-- Witness for C2 at a concrete rejecting environment. -/
theorem malformed_mint_short_circuits_witness :
    badMintEnv.parseMint "not-a-mint!" =
      .error "Invalid public key input" ∧
    ((buyViaPumpPortal badMintEnv "not-a-mint!" 1 5 (1/200)).ret = none ∧
     (buyViaPumpPortal badMintEnv "not-a-mint!" 1 5 (1/200)).trace = [] ∧
     (sellViaPumpPortal badMintEnv "not-a-mint!" 7 5 (1/200)).ret = none ∧
     (sellViaPumpPortal badMintEnv "not-a-mint!" 7 5 (1/200)).trace = []) :=
  ⟨rfl, malformed_mint_short_circuits badMintEnv "not-a-mint!" 1 7 5 (1/200)
    "Invalid public key input" rfl⟩

/-- C3: for every valid buy input the amount field of the posted payload is
`floor(solAmount * 1e9)` rendered as a decimal string (the first traced
action is the POST of exactly that payload). -/
theorem buy_amount_lamports_floor (env : Env) (tokenMint : String)
    (amt s p : ℚ) (m : String) (hm : env.parseMint tokenMint = .ok m) :
    (buyViaPumpPortal env tokenMint amt s p).trace.head? =
      some (.httpPost (buyRequest env m amt s p)) ∧
    (buyRequest env m amt s p).amount =
      toString (⌊amt * 1000000000⌋ : ℤ) := by
  refine ⟨?_, rfl⟩
  obtain ⟨k, hk, ht⟩ := buy_trace_take env tokenMint amt s p m hm
  rw [ht]
  rcases k with _ | n
  · exact absurd hk (by norm_num)
  · rfl

/-- Witness for C3: `0.0123` SOL yields the amount string `"12300000"`. -/
theorem buy_amount_lamports_floor_witness :
    okEnv.parseMint "TOKENMINTX" = .ok "TOKENMINTX" ∧
    ((buyViaPumpPortal okEnv "TOKENMINTX" (123/10000) 5 (1/200)).trace.head? =
       some (.httpPost (buyRequest okEnv "TOKENMINTX" (123/10000) 5
         (1/200))) ∧
     (buyRequest okEnv "TOKENMINTX" (123/10000) 5 (1/200)).amount =
       toString (⌊(123/10000 : ℚ) * 1000000000⌋ : ℤ)) ∧
    (buyRequest okEnv "TOKENMINTX" (123/10000) 5 (1/200)).amount =
      "12300000" :=
  ⟨rfl, buy_amount_lamports_floor okEnv "TOKENMINTX" (123/10000) 5 (1/200)
    "TOKENMINTX" rfl, by
      have h : (⌊(123/10000 : ℚ) * 1000000000⌋ : ℤ) = 12300000 := by
        norm_num
      simp only [buyRequest, h]
      rfl⟩

/-- C6: a zero-length (or missing) builder response body makes both
operations return `none`, log the empty-response diagnostic, and skip
deserialization entirely. -/
theorem empty_response_returns_none (env : Env) (tokenMint : String)
    (amtB amtS s p : ℚ) (m : String) (dB dS : Option (List Nat))
    (hm : env.parseMint tokenMint = .ok m)
    (hpb : env.post (buyRequest env m amtB s p) = .ok dB)
    (hdB : dB = none ∨ dB = some [])
    (hps : env.post (sellRequest env m amtS s p) = .ok dS)
    (hdS : dS = none ∨ dS = some []) :
    (buyViaPumpPortal env tokenMint amtB s p).ret = none ∧
    (⟨.error, "Empty response from PumpPortal API"⟩ : LogEntry) ∈
      (buyViaPumpPortal env tokenMint amtB s p).log ∧
    Action.deserializeTx ∉ (buyViaPumpPortal env tokenMint amtB s p).trace ∧
    (sellViaPumpPortal env tokenMint amtS s p).ret = none ∧
    (⟨.error, "Empty response from PumpPortal API"⟩ : LogEntry) ∈
      (sellViaPumpPortal env tokenMint amtS s p).log ∧
    Action.deserializeTx ∉ (sellViaPumpPortal env tokenMint amtS s p).trace
    := by
  rcases hdB with h | h <;> rcases hdS with h' | h' <;>
    subst h <;> subst h' <;>
    simp [buyViaPumpPortal, sellViaPumpPortal, hm, hpb, hps]

/-- Witness for C6 at a concrete empty-body environment. -/
theorem empty_response_returns_none_witness :
    emptyRespEnv.parseMint "TOKENMINTX" = .ok "TOKENMINTX" ∧
    emptyRespEnv.post (buyRequest emptyRespEnv "TOKENMINTX" 1 5 (1/200)) =
      .ok (some []) ∧
    emptyRespEnv.post (sellRequest emptyRespEnv "TOKENMINTX" 7 5 (1/200)) =
      .ok (some []) ∧
    ((buyViaPumpPortal emptyRespEnv "TOKENMINTX" 1 5 (1/200)).ret = none ∧
     (⟨.error, "Empty response from PumpPortal API"⟩ : LogEntry) ∈
       (buyViaPumpPortal emptyRespEnv "TOKENMINTX" 1 5 (1/200)).log ∧
     Action.deserializeTx ∉
       (buyViaPumpPortal emptyRespEnv "TOKENMINTX" 1 5 (1/200)).trace ∧
     (sellViaPumpPortal emptyRespEnv "TOKENMINTX" 7 5 (1/200)).ret = none ∧
     (⟨.error, "Empty response from PumpPortal API"⟩ : LogEntry) ∈
       (sellViaPumpPortal emptyRespEnv "TOKENMINTX" 7 5 (1/200)).log ∧
     Action.deserializeTx ∉
       (sellViaPumpPortal emptyRespEnv "TOKENMINTX" 7 5 (1/200)).trace) :=
  ⟨rfl, rfl, rfl,
   empty_response_returns_none emptyRespEnv "TOKENMINTX" 1 7 5 (1/200)
     "TOKENMINTX" (some []) (some []) rfl rfl (Or.inr rfl) rfl (Or.inr rfl)⟩

/-- C7: when remote build, signing, submission, and confirmation all
succeed with no on-chain error, both operations return exactly the
signature produced by the submission call. -/
theorem success_returns_submission_signature (env : Env)
    (tokenMint : String) (amtB amtS s p : ℚ) (m : String) (data : List Nat)
    (tx stx : Nat) (sig : String) (bh : Blockhash) (c : Confirmation)
    (hm : env.parseMint tokenMint = .ok m)
    (hpb : env.post (buyRequest env m amtB s p) = .ok (some data))
    (hps : env.post (sellRequest env m amtS s p) = .ok (some data))
    (hd : data ≠ [])
    (hde : env.deserialize data = .ok tx)
    (hsg : env.signTx tx = .ok stx)
    (hsend : env.sendRawTransaction (env.serialize stx) sendOpts = .ok sig)
    (hbh : env.getLatestBlockhash "finalized" = .ok bh)
    (hc : env.confirmTransaction sig bh "confirmed" = .ok c)
    (hce : c.err = none) :
    (buyViaPumpPortal env tokenMint amtB s p).ret = some sig ∧
    (sellViaPumpPortal env tokenMint amtS s p).ret = some sig := by
  have hl : ¬ data.length = 0 := by
    simpa [List.length_eq_zero] using hd
  constructor <;>
    simp [buyViaPumpPortal, sellViaPumpPortal, hm, hpb, hps, hde, hsg,
      hsend, hbh, hc, hce, hl]

/-- Witness for C7 at the all-success environment. -/
theorem success_returns_submission_signature_witness :
    okEnv.parseMint "TOKENMINTX" = .ok "TOKENMINTX" ∧
    okEnv.post (buyRequest okEnv "TOKENMINTX" 1 5 (1/200)) =
      .ok (some [1, 2, 3]) ∧
    okEnv.post (sellRequest okEnv "TOKENMINTX" 1000 5 (1/200)) =
      .ok (some [1, 2, 3]) ∧
    ([1, 2, 3] : List Nat) ≠ [] ∧
    okEnv.deserialize [1, 2, 3] = .ok 0 ∧
    okEnv.signTx 0 = .ok 1 ∧
    okEnv.sendRawTransaction (okEnv.serialize 1) sendOpts = .ok "SIG123" ∧
    okEnv.getLatestBlockhash "finalized" = .ok ⟨"BH", 100⟩ ∧
    okEnv.confirmTransaction "SIG123" ⟨"BH", 100⟩ "confirmed" =
      .ok ⟨none⟩ ∧
    (⟨none⟩ : Confirmation).err = none ∧
    ((buyViaPumpPortal okEnv "TOKENMINTX" 1 5 (1/200)).ret =
       some "SIG123" ∧
     (sellViaPumpPortal okEnv "TOKENMINTX" 1000 5 (1/200)).ret =
       some "SIG123") :=
  ⟨rfl, rfl, rfl, by decide, rfl, rfl, rfl, rfl, rfl, rfl,
   success_returns_submission_signature okEnv "TOKENMINTX" 1 1000 5 (1/200)
     "TOKENMINTX" [1, 2, 3] 0 1 "SIG123" ⟨"BH", 100⟩ ⟨none⟩ rfl rfl rfl
     (by decide) rfl rfl rfl rfl rfl rfl⟩

/-- C8: when submission succeeds but the confirmation result carries a
non-null on-chain error, both operations log the failed transaction and
return `none`. -/
theorem onchain_error_returns_none (env : Env) (tokenMint : String)
    (amtB amtS s p : ℚ) (m : String) (data : List Nat) (tx stx : Nat)
    (sig : String) (bh : Blockhash) (c : Confirmation) (cerr : String)
    (hm : env.parseMint tokenMint = .ok m)
    (hpb : env.post (buyRequest env m amtB s p) = .ok (some data))
    (hps : env.post (sellRequest env m amtS s p) = .ok (some data))
    (hd : data ≠ [])
    (hde : env.deserialize data = .ok tx)
    (hsg : env.signTx tx = .ok stx)
    (hsend : env.sendRawTransaction (env.serialize stx) sendOpts = .ok sig)
    (hbh : env.getLatestBlockhash "finalized" = .ok bh)
    (hc : env.confirmTransaction sig bh "confirmed" = .ok c)
    (hce : c.err = some cerr) :
    (buyViaPumpPortal env tokenMint amtB s p).ret = none ∧
    (⟨.error, "Transaction failed: " ++ cerr⟩ : LogEntry) ∈
      (buyViaPumpPortal env tokenMint amtB s p).log ∧
    (sellViaPumpPortal env tokenMint amtS s p).ret = none ∧
    (⟨.error, "Transaction failed: " ++ cerr⟩ : LogEntry) ∈
      (sellViaPumpPortal env tokenMint amtS s p).log := by
  have hl : ¬ data.length = 0 := by
    simpa [List.length_eq_zero] using hd
  refine ⟨?_, ?_, ?_, ?_⟩ <;>
    simp [buyViaPumpPortal, sellViaPumpPortal, hm, hpb, hps, hde, hsg,
      hsend, hbh, hc, hce, hl]

/-- Witness for C8 at a concrete environment whose confirmation carries an
on-chain error. -/
theorem onchain_error_returns_none_witness :
    chainErrEnv.parseMint "TOKENMINTX" = .ok "TOKENMINTX" ∧
    chainErrEnv.post (buyRequest chainErrEnv "TOKENMINTX" 1 5 (1/200)) =
      .ok (some [1, 2, 3]) ∧
    chainErrEnv.post (sellRequest chainErrEnv "TOKENMINTX" 7 5 (1/200)) =
      .ok (some [1, 2, 3]) ∧
    ([1, 2, 3] : List Nat) ≠ [] ∧
    chainErrEnv.deserialize [1, 2, 3] = .ok 0 ∧
    chainErrEnv.signTx 0 = .ok 1 ∧
    chainErrEnv.sendRawTransaction (chainErrEnv.serialize 1) sendOpts =
      .ok "SIG123" ∧
    chainErrEnv.getLatestBlockhash "finalized" = .ok ⟨"BH", 100⟩ ∧
    chainErrEnv.confirmTransaction "SIG123" ⟨"BH", 100⟩ "confirmed" =
      .ok ⟨some "InstructionError"⟩ ∧
    (⟨some "InstructionError"⟩ : Confirmation).err =
      some "InstructionError" ∧
    ((buyViaPumpPortal chainErrEnv "TOKENMINTX" 1 5 (1/200)).ret = none ∧
     (⟨.error, "Transaction failed: " ++ "InstructionError"⟩ : LogEntry) ∈
       (buyViaPumpPortal chainErrEnv "TOKENMINTX" 1 5 (1/200)).log ∧
     (sellViaPumpPortal chainErrEnv "TOKENMINTX" 7 5 (1/200)).ret = none ∧
     (⟨.error, "Transaction failed: " ++ "InstructionError"⟩ : LogEntry) ∈
       (sellViaPumpPortal chainErrEnv "TOKENMINTX" 7 5 (1/200)).log) :=
  ⟨rfl, rfl, rfl, by decide, rfl, rfl, rfl, rfl, rfl, rfl,
   onchain_error_returns_none chainErrEnv "TOKENMINTX" 1 7 5 (1/200)
     "TOKENMINTX" [1, 2, 3] 0 1 "SIG123" ⟨"BH", 100⟩
     ⟨some "InstructionError"⟩ "InstructionError" rfl rfl rfl (by decide)
     rfl rfl rfl rfl rfl rfl⟩

/-- A non-`none` buy return forces every external step to have
succeeded. -/
lemma buy_ret_some_inv (env : Env) (tokenMint : String) (amt s p : ℚ)
    (h : (buyViaPumpPortal env tokenMint amt s p).ret ≠ none) :
    BuyChainOk env tokenMint amt s p := by
  rcases hm : env.parseMint tokenMint with e | m
  · exact absurd (by simp [buyViaPumpPortal, hm]) h
  · rcases hp : env.post (buyRequest env m amt s p) with e | dataOpt
    · exact absurd (by simp [buyViaPumpPortal, hm, hp]) h
    · rcases dataOpt with _ | data
      · exact absurd (by simp [buyViaPumpPortal, hm, hp]) h
      · by_cases hl : data.length = 0
        · exact absurd (by simp [buyViaPumpPortal, hm, hp, hl]) h
        · rcases hde : env.deserialize data with e | tx
          · exact absurd (by simp [buyViaPumpPortal, hm, hp, hl, hde]) h
          · rcases hsg : env.signTx tx with e | stx
            · exact absurd
                (by simp [buyViaPumpPortal, hm, hp, hl, hde, hsg]) h
            · rcases hsend : env.sendRawTransaction (env.serialize stx)
                sendOpts with e | sig
              · exact absurd
                  (by simp [buyViaPumpPortal, hm, hp, hl, hde, hsg, hsend])
                  h
              · rcases hbh : env.getLatestBlockhash "finalized" with e | bh
                · exact absurd
                    (by simp [buyViaPumpPortal, hm, hp, hl, hde, hsg,
                      hsend, hbh]) h
                · rcases hc : env.confirmTransaction sig bh "confirmed"
                    with e | c
                  · exact absurd
                      (by simp [buyViaPumpPortal, hm, hp, hl, hde, hsg,
                        hsend, hbh, hc]) h
                  · rcases hce : c.err with _ | cerr
                    · refine ⟨m, data, tx, stx, sig, bh, c, hm, hp, ?_,
                        hde, hsg, hsend, hbh, hc, hce, ?_⟩
                      · intro hnil
                        exact hl (by simp [hnil])
                      · simp [buyViaPumpPortal, hm, hp, hl, hde, hsg,
                          hsend, hbh, hc, hce]
                    · exact absurd
                        (by simp [buyViaPumpPortal, hm, hp, hl, hde, hsg,
                          hsend, hbh, hc, hce]) h

/-- A non-`none` sell return forces every external step to have
succeeded. -/
lemma sell_ret_some_inv (env : Env) (tokenMint : String) (amt s p : ℚ)
    (h : (sellViaPumpPortal env tokenMint amt s p).ret ≠ none) :
    SellChainOk env tokenMint amt s p := by
  rcases hm : env.parseMint tokenMint with e | m
  · exact absurd (by simp [sellViaPumpPortal, hm]) h
  · rcases hp : env.post (sellRequest env m amt s p) with e | dataOpt
    · exact absurd (by simp [sellViaPumpPortal, hm, hp]) h
    · rcases dataOpt with _ | data
      · exact absurd (by simp [sellViaPumpPortal, hm, hp]) h
      · by_cases hl : data.length = 0
        · exact absurd (by simp [sellViaPumpPortal, hm, hp, hl]) h
        · rcases hde : env.deserialize data with e | tx
          · exact absurd (by simp [sellViaPumpPortal, hm, hp, hl, hde]) h
          · rcases hsg : env.signTx tx with e | stx
            · exact absurd
                (by simp [sellViaPumpPortal, hm, hp, hl, hde, hsg]) h
            · rcases hsend : env.sendRawTransaction (env.serialize stx)
                sendOpts with e | sig
              · exact absurd
                  (by simp [sellViaPumpPortal, hm, hp, hl, hde, hsg,
                    hsend]) h
              · rcases hbh : env.getLatestBlockhash "finalized" with e | bh
                · exact absurd
                    (by simp [sellViaPumpPortal, hm, hp, hl, hde, hsg,
                      hsend, hbh]) h
                · rcases hc : env.confirmTransaction sig bh "confirmed"
                    with e | c
                  · exact absurd
                      (by simp [sellViaPumpPortal, hm, hp, hl, hde, hsg,
                        hsend, hbh, hc]) h
                  · rcases hce : c.err with _ | cerr
                    · refine ⟨m, data, tx, stx, sig, bh, c, hm, hp, ?_,
                        hde, hsg, hsend, hbh, hc, hce, ?_⟩
                      · intro hnil
                        exact hl (by simp [hnil])
                      · simp [sellViaPumpPortal, hm, hp, hl, hde, hsg,
                          hsend, hbh, hc, hce]
                    · exact absurd
                        (by simp [sellViaPumpPortal, hm, hp, hl, hde, hsg,
                          hsend, hbh, hc, hce]) h

/-- C1: both operations are total Lean functions (no exception can escape
the operation boundary), and any run that does not return the `none`
sentinel is one in which every external step succeeded — contrapositively,
every external failure (HTTP error, malformed address, empty payload,
signing/submission/confirmation failure) results in a `none` return. -/
theorem failure_resolves_to_none (env : Env) (tokenMint : String)
    (amtB amtS s p : ℚ) :
    ((buyViaPumpPortal env tokenMint amtB s p).ret ≠ none →
      BuyChainOk env tokenMint amtB s p) ∧
    ((sellViaPumpPortal env tokenMint amtS s p).ret ≠ none →
      SellChainOk env tokenMint amtS s p) :=
  ⟨buy_ret_some_inv env tokenMint amtB s p,
   sell_ret_some_inv env tokenMint amtS s p⟩

/-- Witness for C1 at the all-success environment. -/
theorem failure_resolves_to_none_witness :
    (buyViaPumpPortal okEnv "TOKENMINTX" 1 5 (1/200)).ret ≠ none ∧
    (sellViaPumpPortal okEnv "TOKENMINTX" 7 5 (1/200)).ret ≠ none ∧
    BuyChainOk okEnv "TOKENMINTX" 1 5 (1/200) ∧
    SellChainOk okEnv "TOKENMINTX" 7 5 (1/200) :=
  ⟨by decide, by decide,
   (failure_resolves_to_none okEnv "TOKENMINTX" 1 7 5 (1/200)).1
     (by decide),
   (failure_resolves_to_none okEnv "TOKENMINTX" 1 7 5 (1/200)).2
     (by decide)⟩

/-- C9: each run requests at most one signature, issues at most one
submission, and sends at most one remote build request; every submission
uses preflight checks (`skipPreflight = false`) and delegates up to 3
retries to the RPC client (`maxRetries = 3`). -/
theorem single_sign_single_submit (env : Env) (tokenMint : String)
    (amtB amtS s p : ℚ) :
    ((buyViaPumpPortal env tokenMint amtB s p).trace.countP isSignReq ≤ 1 ∧
     (buyViaPumpPortal env tokenMint amtB s p).trace.countP isSendTx ≤ 1 ∧
     (buyViaPumpPortal env tokenMint amtB s p).trace.countP isHttpPost ≤ 1 ∧
     ∀ o, Action.sendTx o ∈ (buyViaPumpPortal env tokenMint amtB s p).trace →
       o = { skipPreflight := false, maxRetries := 3 }) ∧
    ((sellViaPumpPortal env tokenMint amtS s p).trace.countP isSignReq ≤ 1 ∧
     (sellViaPumpPortal env tokenMint amtS s p).trace.countP isSendTx ≤ 1 ∧
     (sellViaPumpPortal env tokenMint amtS s p).trace.countP isHttpPost ≤ 1 ∧
     ∀ o, Action.sendTx o ∈ (sellViaPumpPortal env tokenMint amtS s p).trace →
       o = { skipPreflight := false, maxRetries := 3 }) := by
  constructor
  · rcases hm : env.parseMint tokenMint with e | m
    · rw [buy_parse_fail env tokenMint amtB s p e hm]
      simp
    · obtain ⟨k, hk, ht⟩ := buy_trace_take env tokenMint amtB s p m hm
      rw [ht]
      have hpre : (([.httpPost (buyRequest env m amtB s p), .deserializeTx,
          .signReq, .sendTx sendOpts, .fetchBlockhash, .confirmTx] :
            List Action).take k) <+:
          ([.httpPost (buyRequest env m amtB s p), .deserializeTx, .signReq,
            .sendTx sendOpts, .fetchBlockhash, .confirmTx] : List Action) :=
        ⟨([.httpPost (buyRequest env m amtB s p), .deserializeTx, .signReq,
            .sendTx sendOpts, .fetchBlockhash, .confirmTx] :
              List Action).drop k, List.take_append_drop k _⟩
      have hsub := hpre.sublist
      refine ⟨le_trans (hsub.countP_le isSignReq)
          (by simp [List.countP_cons, List.countP_nil, isSignReq]),
        le_trans (hsub.countP_le isSendTx)
          (by simp [List.countP_cons, List.countP_nil, isSendTx]),
        le_trans (hsub.countP_le isHttpPost)
          (by simp [List.countP_cons, List.countP_nil, isHttpPost]), ?_⟩
      intro o ho
      have hmem := hpre.subset ho
      simpa [sendOpts] using hmem
  · rcases hm : env.parseMint tokenMint with e | m
    · rw [sell_parse_fail env tokenMint amtS s p e hm]
      simp
    · obtain ⟨k, hk, ht⟩ := sell_trace_take env tokenMint amtS s p m hm
      rw [ht]
      have hpre : (([.httpPost (sellRequest env m amtS s p), .deserializeTx,
          .signReq, .sendTx sendOpts, .fetchBlockhash, .confirmTx] :
            List Action).take k) <+:
          ([.httpPost (sellRequest env m amtS s p), .deserializeTx, .signReq,
            .sendTx sendOpts, .fetchBlockhash, .confirmTx] : List Action) :=
        ⟨([.httpPost (sellRequest env m amtS s p), .deserializeTx, .signReq,
            .sendTx sendOpts, .fetchBlockhash, .confirmTx] :
              List Action).drop k, List.take_append_drop k _⟩
      have hsub := hpre.sublist
      refine ⟨le_trans (hsub.countP_le isSignReq)
          (by simp [List.countP_cons, List.countP_nil, isSignReq]),
        le_trans (hsub.countP_le isSendTx)
          (by simp [List.countP_cons, List.countP_nil, isSendTx]),
        le_trans (hsub.countP_le isHttpPost)
          (by simp [List.countP_cons, List.countP_nil, isHttpPost]), ?_⟩
      intro o ho
      have hmem := hpre.subset ho
      simpa [sendOpts] using hmem

/-- The first character of an appended string is the first character of
its left part. -/
lemma str_head_append (a b : String) (c : Char)
    (h : a.data.head? = some c) : (a ++ b).data.head? = some c := by
  have hd : (a ++ b).data = a.data ++ b.data := rfl
  rw [hd]
  cases ha : a.data with
  | nil => rw [ha] at h; cases h
  | cons x xs =>
    rw [ha] at h
    simp only [List.head?] at h
    simp [List.head?, h]

/-- Two strings with distinct first characters differ. -/
lemma ne_of_heads (a b : String) (c d : Char)
    (hc : a.data.head? = some c) (hd : b.data.head? = some d)
    (hcd : c ≠ d) : a ≠ b := by
  intro he
  rw [he] at hc
  rw [hc] at hd
  exact hcd (Option.some.inj hd)

/-- C5: an HTTP error whose body contains a migration keyword makes both
operations return `none` and log the token-migrated classification at warn
level — and at no point at error level. -/
theorem migrated_logged_as_warning (env : Env) (tokenMint : String)
    (amtB amtS s p : ℚ) (m : String) (e : JsError) (resp : HttpErrResp)
    (t : String)
    (hm : env.parseMint tokenMint = .ok m)
    (hpb : env.post (buyRequest env m amtB s p) = .error e)
    (hps : env.post (sellRequest env m amtS s p) = .error e)
    (hresp : e.response = some resp)
    (hdata : resp.hasData = true)
    (hdec : resp.decoded = some t)
    (hkw : migrationText t = true) :
    (buyViaPumpPortal env tokenMint amtB s p).ret = none ∧
    (⟨.warn, migratedWarnMsg tokenMint⟩ : LogEntry) ∈
      (buyViaPumpPortal env tokenMint amtB s p).log ∧
    (⟨.error, migratedWarnMsg tokenMint⟩ : LogEntry) ∉
      (buyViaPumpPortal env tokenMint amtB s p).log ∧
    (sellViaPumpPortal env tokenMint amtS s p).ret = none ∧
    (⟨.warn, migratedWarnMsg tokenMint⟩ : LogEntry) ∈
      (sellViaPumpPortal env tokenMint amtS s p).log ∧
    (⟨.error, migratedWarnMsg tokenMint⟩ : LogEntry) ∉
      (sellViaPumpPortal env tokenMint amtS s p).log := by
  refine ⟨?_, ?_, ?_, ?_, ?_, ?_⟩ <;>
    simp [buyViaPumpPortal, sellViaPumpPortal, hm, hpb, hps,
      handleBuyError, handleSellError, hresp, handleHttpError, hdata,
      hdec, hkw] <;>
    exact ⟨ne_of_heads _ _ 'T' 'P'
        (str_head_append ("Token " ++ take8 tokenMint) _ 'T'
          (str_head_append "Token " _ 'T' (by decide)))
        (str_head_append "PumpPortal API error: " _ 'P' (by decide))
        (by decide),
      ne_of_heads _ _ 'T' 'E'
        (str_head_append ("Token " ++ take8 tokenMint) _ 'T'
          (str_head_append "Token " _ 'T' (by decide)))
        (str_head_append "Error details: " _ 'E' (by decide))
        (by decide)⟩

/-- C10: body-text classification takes precedence over the status-400
branch — when the body of a 400 response contains a migration keyword, the
status-400 invalid-parameters warning is never emitted. -/
theorem migrated_overrides_status400 (env : Env) (tokenMint : String)
    (amtB amtS s p : ℚ) (m : String) (e : JsError) (resp : HttpErrResp)
    (t : String)
    (hm : env.parseMint tokenMint = .ok m)
    (hpb : env.post (buyRequest env m amtB s p) = .error e)
    (hps : env.post (sellRequest env m amtS s p) = .error e)
    (hresp : e.response = some resp)
    (hstatus : resp.status = 400)
    (hdata : resp.hasData = true)
    (hdec : resp.decoded = some t)
    (hkw : migrationText t = true) :
    (buyViaPumpPortal env tokenMint amtB s p).ret = none ∧
    (⟨.warn, invalidParamsMsg tokenMint⟩ : LogEntry) ∉
      (buyViaPumpPortal env tokenMint amtB s p).log ∧
    (sellViaPumpPortal env tokenMint amtS s p).ret = none ∧
    (⟨.warn, invalidParamsMsg tokenMint⟩ : LogEntry) ∉
      (sellViaPumpPortal env tokenMint amtS s p).log := by
  refine ⟨?_, ?_, ?_, ?_⟩ <;>
    simp [buyViaPumpPortal, sellViaPumpPortal, hm, hpb, hps,
      handleBuyError, handleSellError, hresp, handleHttpError, hdata,
      hdec, hkw] <;>
    exact ne_of_heads _ _ 'I' 'T'
      (str_head_append
        ("Invalid token or request parameters for " ++ take8 tokenMint) _
        'I' (str_head_append "Invalid token or request parameters for " _
          'I' (by decide)))
      (str_head_append ("Token " ++ take8 tokenMint) _ 'T'
        (str_head_append "Token " _ 'T' (by decide)))
      (by decide)

/-- Witness for C5 at a concrete migrated-token HTTP failure. -/
theorem migrated_logged_as_warning_witness :
    migratedEnv.parseMint "TOKENMINTX" = .ok "TOKENMINTX" ∧
    migratedEnv.post (buyRequest migratedEnv "TOKENMINTX" 1 5 (1/200)) =
      .error migratedErr ∧
    migratedEnv.post (sellRequest migratedEnv "TOKENMINTX" 7 5 (1/200)) =
      .error migratedErr ∧
    migratedErr.response =
      some ⟨500, true, some "token has migrated", "raw"⟩ ∧
    (⟨500, true, some "token has migrated", "raw"⟩ : HttpErrResp).hasData =
      true ∧
    (⟨500, true, some "token has migrated", "raw"⟩ : HttpErrResp).decoded =
      some "token has migrated" ∧
    migrationText "token has migrated" = true ∧
    ((buyViaPumpPortal migratedEnv "TOKENMINTX" 1 5 (1/200)).ret = none ∧
     (⟨.warn, migratedWarnMsg "TOKENMINTX"⟩ : LogEntry) ∈
       (buyViaPumpPortal migratedEnv "TOKENMINTX" 1 5 (1/200)).log ∧
     (⟨.error, migratedWarnMsg "TOKENMINTX"⟩ : LogEntry) ∉
       (buyViaPumpPortal migratedEnv "TOKENMINTX" 1 5 (1/200)).log ∧
     (sellViaPumpPortal migratedEnv "TOKENMINTX" 7 5 (1/200)).ret = none ∧
     (⟨.warn, migratedWarnMsg "TOKENMINTX"⟩ : LogEntry) ∈
       (sellViaPumpPortal migratedEnv "TOKENMINTX" 7 5 (1/200)).log ∧
     (⟨.error, migratedWarnMsg "TOKENMINTX"⟩ : LogEntry) ∉
       (sellViaPumpPortal migratedEnv "TOKENMINTX" 7 5 (1/200)).log) :=
  ⟨rfl, rfl, rfl, rfl, rfl, rfl, by decide,
   migrated_logged_as_warning migratedEnv "TOKENMINTX" 1 7 5 (1/200)
     "TOKENMINTX" migratedErr ⟨500, true, some "token has migrated", "raw"⟩
     "token has migrated" rfl rfl rfl rfl rfl rfl (by decide)⟩

/-- Witness for C10 at a concrete 400-status migrated-token failure. -/
theorem migrated_overrides_status400_witness :
    migrated400Env.parseMint "TOKENMINTX" = .ok "TOKENMINTX" ∧
    migrated400Env.post
      (buyRequest migrated400Env "TOKENMINTX" 1 5 (1/200)) =
        .error migrated400Err ∧
    migrated400Env.post
      (sellRequest migrated400Env "TOKENMINTX" 7 5 (1/200)) =
        .error migrated400Err ∧
    migrated400Err.response =
      some ⟨400, true, some "bonding curve does not exist", "raw"⟩ ∧
    (⟨400, true, some "bonding curve does not exist", "raw"⟩ :
      HttpErrResp).status = 400 ∧
    (⟨400, true, some "bonding curve does not exist", "raw"⟩ :
      HttpErrResp).hasData = true ∧
    (⟨400, true, some "bonding curve does not exist", "raw"⟩ :
      HttpErrResp).decoded = some "bonding curve does not exist" ∧
    migrationText "bonding curve does not exist" = true ∧
    ((buyViaPumpPortal migrated400Env "TOKENMINTX" 1 5 (1/200)).ret =
       none ∧
     (⟨.warn, invalidParamsMsg "TOKENMINTX"⟩ : LogEntry) ∉
       (buyViaPumpPortal migrated400Env "TOKENMINTX" 1 5 (1/200)).log ∧
     (sellViaPumpPortal migrated400Env "TOKENMINTX" 7 5 (1/200)).ret =
       none ∧
     (⟨.warn, invalidParamsMsg "TOKENMINTX"⟩ : LogEntry) ∉
       (sellViaPumpPortal migrated400Env "TOKENMINTX" 7 5 (1/200)).log) :=
  ⟨rfl, rfl, rfl, rfl, rfl, rfl, rfl, by decide,
   migrated_overrides_status400 migrated400Env "TOKENMINTX" 1 7 5 (1/200)
     "TOKENMINTX" migrated400Err
     ⟨400, true, some "bonding curve does not exist", "raw"⟩
     "bonding curve does not exist" rfl rfl rfl rfl rfl rfl rfl
     (by decide)⟩

/-- C4 as frozen is false: at this concrete input the execution logs
of the failure contain `"NotEnoughTokensToBuy"`, yet the expanded diagnostic (whose
marker line is `"Possible reasons:"`) is not emitted, because the error
message itself lacks the keyword; moreover the non-matching log line
`"Left: 10"` is surfaced at error level, not routed to debug. -/
theorem buy_exhaustion_claim_counterexample :
    notEnoughLogsErr.logs =
      some ["Program log: NotEnoughTokensToBuy", "Left: 10"] ∧
    notEnoughText "Program log: NotEnoughTokensToBuy" = true ∧
    notEnoughText "Left: 10" = false ∧
    (buyViaPumpPortal notEnoughLogsEnv "TOKENMINTX" 1 5 (1/200)).ret =
      none ∧
    (⟨.error, "Possible reasons:"⟩ : LogEntry) ∉
      (buyViaPumpPortal notEnoughLogsEnv "TOKENMINTX" 1 5 (1/200)).log ∧
    (⟨.debug, "  Left: 10"⟩ : LogEntry) ∉
      (buyViaPumpPortal notEnoughLogsEnv "TOKENMINTX" 1 5 (1/200)).log ∧
    (⟨.error, "  Left: 10"⟩ : LogEntry) ∈
      (buyViaPumpPortal notEnoughLogsEnv "TOKENMINTX" 1 5 (1/200)).log :=
  ⟨rfl, by decide, by decide, by decide, by decide, by decide, by decide⟩

/-- C4 (amended): when a buy failure has no HTTP response and its error
message contains an exhaustion keyword, the operation returns `none` and
emits the expanded three-cause diagnostic; any attached execution log
lines are surfaced at error level when they match the exhaustion keywords
(or contain `Left:`/`Right:`) and routed to debug level otherwise. -/
theorem buy_exhaustion_diagnostic (env : Env) (tokenMint : String)
    (amt s p : ℚ) (m : String) (e : JsError) (msg : String)
    (hm : env.parseMint tokenMint = .ok m)
    (hpb : env.post (buyRequest env m amt s p) = .error e)
    (hresp : e.response = none)
    (hmsg : e.message = some msg)
    (hkw : notEnoughText msg = true) :
    (buyViaPumpPortal env tokenMint amt s p).ret = none ∧
    (∀ en ∈ bondingCurveDiag tokenMint,
      en ∈ (buyViaPumpPortal env tokenMint amt s p).log) ∧
    (∀ ls, e.logs = some ls → ∀ lg ∈ ls,
      ((notEnoughText lg = true ∨ strContains lg "Left:" = true ∨
        strContains lg "Right:" = true) →
        (⟨.error, "  " ++ lg⟩ : LogEntry) ∈
          (buyViaPumpPortal env tokenMint amt s p).log) ∧
      (notEnoughText lg = false → strContains lg "Left:" = false →
        strContains lg "Right:" = false →
        (⟨.debug, "  " ++ lg⟩ : LogEntry) ∈
          (buyViaPumpPortal env tokenMint amt s p).log)) := by
  refine ⟨by simp [buyViaPumpPortal, hm, hpb], ?_, ?_⟩
  · intro en hen
    have hlog : (buyViaPumpPortal env tokenMint amt s p).log =
        [⟨.info, "Using PumpPortal API to buy " ++ toString amt ++
            " SOL worth of " ++ take8 tokenMint ++ "..."⟩,
         ⟨.debug, "PumpPortal API request:"⟩,
         ⟨.error, "PumpPortal buy error: " ++ msg⟩] ++
        (bondingCurveDiag tokenMint ++
          (match e.logs with
           | some ls =>
             [⟨.error, "Transaction Logs:"⟩] ++ ls.map classifyLogLine
           | none => [])) := by
      simp [buyViaPumpPortal, hm, hpb, handleBuyError, hresp, hmsg, hkw]
    rw [hlog]
    exact List.mem_append_right _ (List.mem_append_left _ hen)
  · intro ls hls lg hlg
    have hlog : (buyViaPumpPortal env tokenMint amt s p).log =
        [⟨.info, "Using PumpPortal API to buy " ++ toString amt ++
            " SOL worth of " ++ take8 tokenMint ++ "..."⟩,
         ⟨.debug, "PumpPortal API request:"⟩,
         ⟨.error, "PumpPortal buy error: " ++ msg⟩] ++
        (bondingCurveDiag tokenMint ++
          ([⟨.error, "Transaction Logs:"⟩] ++ ls.map classifyLogLine)) := by
      simp [buyViaPumpPortal, hm, hpb, handleBuyError, hresp, hmsg, hkw,
        hls]
    have hmem : classifyLogLine lg ∈
        (buyViaPumpPortal env tokenMint amt s p).log := by
      rw [hlog]
      exact List.mem_append_right _ (List.mem_append_right _
        (List.mem_append_right _ (List.mem_map_of_mem _ hlg)))
    refine ⟨fun hkl => ?_, fun h1 h2 h3 => ?_⟩
    · have hcl : classifyLogLine lg = ⟨.error, "  " ++ lg⟩ := by
        rcases hkl with h | h | h <;> simp [classifyLogLine, h]
      rwa [hcl] at hmem
    · have hcl : classifyLogLine lg = ⟨.debug, "  " ++ lg⟩ := by
        simp [classifyLogLine, h1, h2, h3]
      rwa [hcl] at hmem

/-- Witness for the amended C4 at a concrete exhaustion failure: the
diagnostic marker line is emitted, the matching log line is surfaced at
error level, and the unrelated log line is routed to debug level. -/
theorem buy_exhaustion_diagnostic_witness :
    notEnoughMsgEnv.parseMint "TOKENMINTX" = .ok "TOKENMINTX" ∧
    notEnoughMsgEnv.post
      (buyRequest notEnoughMsgEnv "TOKENMINTX" 1 5 (1/200)) =
        .error notEnoughMsgErr ∧
    notEnoughMsgErr.response = none ∧
    notEnoughMsgErr.message =
      some "custom program error: NotEnoughTokensToBuy" ∧
    notEnoughText "custom program error: NotEnoughTokensToBuy" = true ∧
    (buyViaPumpPortal notEnoughMsgEnv "TOKENMINTX" 1 5 (1/200)).ret =
      none ∧
    (⟨.error, "Possible reasons:"⟩ : LogEntry) ∈
      (buyViaPumpPortal notEnoughMsgEnv "TOKENMINTX" 1 5 (1/200)).log ∧
    (⟨.error, "  Program log: NotEnoughTokensToBuy"⟩ : LogEntry) ∈
      (buyViaPumpPortal notEnoughMsgEnv "TOKENMINTX" 1 5 (1/200)).log ∧
    (⟨.debug, "  Program consumed 200 units"⟩ : LogEntry) ∈
      (buyViaPumpPortal notEnoughMsgEnv "TOKENMINTX" 1 5 (1/200)).log :=
  ⟨rfl, rfl, rfl, rfl, by decide,
   (buy_exhaustion_diagnostic notEnoughMsgEnv "TOKENMINTX" 1 5 (1/200)
     "TOKENMINTX" notEnoughMsgErr
     "custom program error: NotEnoughTokensToBuy" rfl rfl rfl rfl
     (by decide)).1,
   (buy_exhaustion_diagnostic notEnoughMsgEnv "TOKENMINTX" 1 5 (1/200)
     "TOKENMINTX" notEnoughMsgErr
     "custom program error: NotEnoughTokensToBuy" rfl rfl rfl rfl
     (by decide)).2.1 ⟨.error, "Possible reasons:"⟩ (by decide),
   ((buy_exhaustion_diagnostic notEnoughMsgEnv "TOKENMINTX" 1 5 (1/200)
     "TOKENMINTX" notEnoughMsgErr
     "custom program error: NotEnoughTokensToBuy" rfl rfl rfl rfl
     (by decide)).2.2
     ["Program log: NotEnoughTokensToBuy", "Program consumed 200 units"]
     rfl "Program log: NotEnoughTokensToBuy" (by decide)).1
     (Or.inl (by decide)),
   ((buy_exhaustion_diagnostic notEnoughMsgEnv "TOKENMINTX" 1 5 (1/200)
     "TOKENMINTX" notEnoughMsgErr
     "custom program error: NotEnoughTokensToBuy" rfl rfl rfl rfl
     (by decide)).2.2
     ["Program log: NotEnoughTokensToBuy", "Program consumed 200 units"]
     rfl "Program consumed 200 units" (by decide)).2 (by decide)
     (by decide) (by decide)⟩

/-- Witness for C9 at the all-success environment: the counts hold, and
instantiating the submission-options property at the traced submission
recovers the fixed options. -/
theorem single_sign_single_submit_witness :
    (buyViaPumpPortal okEnv "WITNESSMINT" 2 5 (1/200)).trace.countP
      isSignReq ≤ 1 ∧
    (buyViaPumpPortal okEnv "WITNESSMINT" 2 5 (1/200)).trace.countP
      isSendTx ≤ 1 ∧
    (buyViaPumpPortal okEnv "WITNESSMINT" 2 5 (1/200)).trace.countP
      isHttpPost ≤ 1 ∧
    (sellViaPumpPortal okEnv "WITNESSMINT" 9 5 (1/200)).trace.countP
      isSignReq ≤ 1 ∧
    (sellViaPumpPortal okEnv "WITNESSMINT" 9 5 (1/200)).trace.countP
      isSendTx ≤ 1 ∧
    (sellViaPumpPortal okEnv "WITNESSMINT" 9 5 (1/200)).trace.countP
      isHttpPost ≤ 1 ∧
    sendOpts = { skipPreflight := false, maxRetries := 3 } :=
  ⟨(single_sign_single_submit okEnv "WITNESSMINT" 2 9 5 (1/200)).1.1,
   (single_sign_single_submit okEnv "WITNESSMINT" 2 9 5 (1/200)).1.2.1,
   (single_sign_single_submit okEnv "WITNESSMINT" 2 9 5 (1/200)).1.2.2.1,
   (single_sign_single_submit okEnv "WITNESSMINT" 2 9 5 (1/200)).2.1,
   (single_sign_single_submit okEnv "WITNESSMINT" 2 9 5 (1/200)).2.2.1,
   (single_sign_single_submit okEnv "WITNESSMINT" 2 9 5 (1/200)).2.2.2.1,
   (single_sign_single_submit okEnv "WITNESSMINT" 2 9 5 (1/200)).1.2.2.2
     sendOpts (by decide)⟩

end PumpPortal
